import Mathlib

/-!
Verification development for the `physical-cubes` repository.

The repository's physics-relevant code is a thin layer over the cannon-es
rigid-body library:
  * `src/utils/threeHelpers.js` (the unnamed helper file): `createPhysicsWorld`,
    `createCube`, `createFloor`, `createJointBody`, `addJointConstraint`,
    `moveJoint`, `removeJointConstraint`;
  * `src/components/ThreeScene.js`: the pointer / touch drag handlers
    (`handlePointerDown/Move/Up`, `handleTouchStart/Move/End`) and the
    `animate` stepping loop.

This file shallowly embeds those functions.  JavaScript doubles are modelled
as exact rationals (`ℚ`); no claim below depends on floating-point rounding.
JavaScript object mutation is modelled by explicit state passing: bodies live
in the `World`'s body list and are addressed by their cannon `id`, which is
how the JS code aliases them.  Library calls made by the repository
(`CANNON.Body`, `applyImpulse`, `integrate`, `PointToPointConstraint`,
`world.addConstraint` / `removeConstraint`, the contact-material table) are
embedded following the cannon-es sources, since the repository's behaviour
factors through them.  Rendering, raycasting and DOM code are out of scope
(the spec places them outside the physics core); ray hits enter the embedded
handlers as explicit `Option (body id × hit point)` inputs.
-/

/-- 3-component vector over ℚ, modelling `CANNON.Vec3`. -/
@[ext] structure Vec3 where
  x : ℚ
  y : ℚ
  z : ℚ
deriving Repr, DecidableEq

def Vec3.zero : Vec3 := ⟨0, 0, 0⟩

/-- `CANNON.Vec3.vadd`. -/
def Vec3.vadd (a b : Vec3) : Vec3 := ⟨a.x + b.x, a.y + b.y, a.z + b.z⟩

/-- `CANNON.Vec3.vsub`. -/
def Vec3.vsub (a b : Vec3) : Vec3 := ⟨a.x - b.x, a.y - b.y, a.z - b.z⟩

/-- `CANNON.Vec3.scale`. -/
def Vec3.scale (s : ℚ) (a : Vec3) : Vec3 := ⟨s * a.x, s * a.y, s * a.z⟩

/-- `CANNON.Vec3.cross`: `a.cross(b)` returns `a × b`. -/
def Vec3.cross (a b : Vec3) : Vec3 :=
  ⟨a.y * b.z - a.z * b.y, a.z * b.x - a.x * b.z, a.x * b.y - a.y * b.x⟩

/-- Quaternion over ℚ, modelling `CANNON.Quaternion` (x, y, z imaginary, w real). -/
@[ext] structure Quat where
  x : ℚ
  y : ℚ
  z : ℚ
  w : ℚ
deriving Repr, DecidableEq

/-- The identity quaternion `(0,0,0,1)`, cannon's constructor default. -/
def Quat.ident : Quat := ⟨0, 0, 0, 1⟩

/-- Squared norm, the quantity cannon's `Quaternion.inverse` divides by. -/
def Quat.normSq (q : Quat) : ℚ := q.x * q.x + q.y * q.y + q.z * q.z + q.w * q.w

/-- `CANNON.Quaternion.conjugate`. -/
def Quat.conjugate (q : Quat) : Quat := ⟨-q.x, -q.y, -q.z, q.w⟩

/-- `CANNON.Quaternion.inverse`: conjugate scaled by `1 / norm²`.  (In JS a
zero norm would give `Infinity`; over ℚ, `1/0 = 0`.  Every quaternion this
development applies `inverse` to is a body orientation of unit norm.) -/
def Quat.inverse (q : Quat) : Quat :=
  let c := q.conjugate
  let inorm2 := 1 / q.normSq
  ⟨c.x * inorm2, c.y * inorm2, c.z * inorm2, c.w * inorm2⟩

/-- `CANNON.Quaternion.vmult`: rotate vector `v` by the quaternion
(`q * v * conj q`), exactly as written in the cannon-es source. -/
def Quat.vmult (q : Quat) (v : Vec3) : Vec3 :=
  let ix := q.w * v.x + q.y * v.z - q.z * v.y
  let iy := q.w * v.y + q.z * v.x - q.x * v.z
  let iz := q.w * v.z + q.x * v.y - q.y * v.x
  let iw := -q.x * v.x - q.y * v.y - q.z * v.z
  ⟨ix * q.w + iw * (-q.x) + iy * (-q.z) - iz * (-q.y),
   iy * q.w + iw * (-q.y) + iz * (-q.x) - ix * (-q.z),
   iz * q.w + iw * (-q.z) + ix * (-q.y) - iy * (-q.x)⟩

/-- `CANNON.Quaternion.integrate`: quaternion-derivative step used by
`Body.integrate` (target starts from the quaternion itself). -/
def Quat.integrateQ (q : Quat) (angularVelocity : Vec3) (dt : ℚ)
    (angularFactor : Vec3) : Quat :=
  let ax := angularVelocity.x * angularFactor.x
  let ay := angularVelocity.y * angularFactor.y
  let az := angularVelocity.z * angularFactor.z
  let halfDt := dt * (1 / 2)
  ⟨q.x + halfDt * (ax * q.w + ay * q.z - az * q.y),
   q.y + halfDt * (ay * q.w + az * q.x - ax * q.z),
   q.z + halfDt * (az * q.w + ax * q.y - ay * q.x),
   q.w + halfDt * (-ax * q.x - ay * q.y - az * q.z)⟩

/-- Row-major 3×3 matrix over ℚ, modelling `CANNON.Mat3`. -/
@[ext] structure Mat3 where
  e0 : ℚ
  e1 : ℚ
  e2 : ℚ
  e3 : ℚ
  e4 : ℚ
  e5 : ℚ
  e6 : ℚ
  e7 : ℚ
  e8 : ℚ
deriving Repr, DecidableEq

def Mat3.zeroM : Mat3 := ⟨0, 0, 0, 0, 0, 0, 0, 0, 0⟩

/-- `CANNON.Mat3.vmult`. -/
def Mat3.vmultM (m : Mat3) (v : Vec3) : Vec3 :=
  ⟨m.e0 * v.x + m.e1 * v.y + m.e2 * v.z,
   m.e3 * v.x + m.e4 * v.y + m.e5 * v.z,
   m.e6 * v.x + m.e7 * v.y + m.e8 * v.z⟩

/-- `CANNON.Mat3.setRotationFromQuaternion`. -/
def Mat3.rotFromQuat (q : Quat) : Mat3 :=
  let x2 := q.x + q.x
  let y2 := q.y + q.y
  let z2 := q.z + q.z
  let xx := q.x * x2
  let xy := q.x * y2
  let xz := q.x * z2
  let yy := q.y * y2
  let yz := q.y * z2
  let zz := q.z * z2
  let wx := q.w * x2
  let wy := q.w * y2
  let wz := q.w * z2
  ⟨1 - (yy + zz), xy - wz, xz + wy,
   xy + wz, 1 - (xx + zz), yz - wx,
   xz - wy, yz + wx, 1 - (xx + yy)⟩

/-- `CANNON.Mat3.transpose`. -/
def Mat3.transposeM (m : Mat3) : Mat3 :=
  ⟨m.e0, m.e3, m.e6, m.e1, m.e4, m.e7, m.e2, m.e5, m.e8⟩

/-- `CANNON.Mat3.scale`: scales the columns by the vector's components. -/
def Mat3.scaleCols (m : Mat3) (v : Vec3) : Mat3 :=
  ⟨v.x * m.e0, v.y * m.e1, v.z * m.e2,
   v.x * m.e3, v.y * m.e4, v.z * m.e5,
   v.x * m.e6, v.y * m.e7, v.z * m.e8⟩

/-- `CANNON.Mat3.mmult`: `a.mmult(b)` fills `target[i][j] = Σₖ b[i][k] * a[k][j]`
per the cannon-es loop (the argument multiplies from the left). -/
def Mat3.mmultM (a b : Mat3) : Mat3 :=
  ⟨b.e0 * a.e0 + b.e1 * a.e3 + b.e2 * a.e6,
   b.e0 * a.e1 + b.e1 * a.e4 + b.e2 * a.e7,
   b.e0 * a.e2 + b.e1 * a.e5 + b.e2 * a.e8,
   b.e3 * a.e0 + b.e4 * a.e3 + b.e5 * a.e6,
   b.e3 * a.e1 + b.e4 * a.e4 + b.e5 * a.e7,
   b.e3 * a.e2 + b.e4 * a.e5 + b.e5 * a.e8,
   b.e6 * a.e0 + b.e7 * a.e3 + b.e8 * a.e6,
   b.e6 * a.e1 + b.e7 * a.e4 + b.e8 * a.e7,
   b.e6 * a.e2 + b.e7 * a.e5 + b.e8 * a.e8⟩

/-- Shape primitives used by the repository: `CANNON.Box` (half extents),
`CANNON.Plane`, `CANNON.Sphere` (radius). -/
inductive Shape where
  | box (halfExtents : Vec3)
  | plane
  | sphere (radius : ℚ)
deriving Repr, DecidableEq

/-- `CANNON.Body` type constants. -/
inductive BodyType where
  | DYNAMIC
  | STATIC
  | KINEMATIC
deriving Repr, DecidableEq

/-- `CANNON.Body` sleep-state constants. -/
inductive SleepState where
  | AWAKE
  | SLEEPY
  | SLEEPING
deriving Repr, DecidableEq

/-- The fields of `CANNON.Body` that the repository's code reads or writes. -/
structure Body where
  id : ℕ
  mass : ℚ
  invMass : ℚ
  btype : BodyType
  position : Vec3
  previousPosition : Vec3
  quaternion : Quat
  previousQuaternion : Quat
  velocity : Vec3
  angularVelocity : Vec3
  force : Vec3
  torque : Vec3
  linearDamping : ℚ
  angularDamping : ℚ
  linearFactor : Vec3
  angularFactor : Vec3
  invInertia : Vec3
  invInertiaWorld : Mat3
  materialId : Option ℕ
  shapes : List Shape
  collisionFilterGroup : ℤ
  collisionFilterMask : ℤ
  allowSleep : Bool
  sleepState : SleepState
deriving Repr, DecidableEq

/-- `CANNON.Body.wakeUp`: forces the body awake (the sleep-event dispatch has
no physical effect and is omitted). -/
def Body.wakeUp (b : Body) : Body := { b with sleepState := SleepState.AWAKE }

/-- `CANNON.Body.applyImpulse(impulse, relativePoint)`: early return for
non-dynamic bodies; otherwise wake if sleeping, add `invMass * impulse` to the
linear velocity and `invInertiaWorld * (relativePoint × impulse)` to the
angular velocity. -/
def Body.applyImpulse (b : Body) (impulse relativePoint : Vec3) : Body :=
  if b.btype ≠ BodyType.DYNAMIC then b
  else
    let b1 := if b.sleepState = SleepState.SLEEPING then b.wakeUp else b
    { b1 with
      velocity := b1.velocity.vadd (Vec3.scale b1.invMass impulse)
      angularVelocity :=
        b1.angularVelocity.vadd (b1.invInertiaWorld.vmultM (relativePoint.cross impulse)) }

/-- `CANNON.Box.calculateInertia` evaluated on AABB half extents, as done by
`Body.updateMassProperties` (which approximates every shape by its AABB box). -/
def boxInertia (mass : ℚ) (he : Vec3) : Vec3 :=
  ⟨(1 / 12) * mass * (2 * he.y * 2 * he.y + 2 * he.z * 2 * he.z),
   (1 / 12) * mass * (2 * he.x * 2 * he.x + 2 * he.z * 2 * he.z),
   (1 / 12) * mass * (2 * he.y * 2 * he.y + 2 * he.x * 2 * he.x)⟩

/-- AABB half extents of a shape at identity orientation (all bodies here are
constructed unrotated).  The plane's AABB is unbounded in cannon; the value is
immaterial because the only plane body has mass 0, making its inertia 0. -/
def Shape.aabbHalfExtents : Shape → Vec3
  | Shape.box he => he
  | Shape.plane => Vec3.zero
  | Shape.sphere r => ⟨r, r, r⟩

/-- `CANNON.Body.updateInertiaWorld(force)`: skipped for isotropic inertia
unless forced, otherwise `invInertiaWorld := Rᵀ ·ₗ (R with columns scaled by
invInertia)` following the cannon-es `mmult` convention. -/
def Body.updateInertiaWorld (force : Bool) (b : Body) : Body :=
  if b.invInertia.x = b.invInertia.y ∧ b.invInertia.y = b.invInertia.z ∧ ¬force then b
  else
    let m1 := Mat3.rotFromQuat b.quaternion
    let m2 := m1.transposeM
    let m1s := m1.scaleCols b.invInertia
    { b with invInertiaWorld := m1s.mmultM m2 }

/-- `CANNON.Body.updateMassProperties`: recompute `invMass`, the AABB-box
inertia, `invInertia` (0 on any zero component) and `invInertiaWorld`. -/
def Body.updateMassProps (b : Body) : Body :=
  let invMass : ℚ := if b.mass > 0 then 1 / b.mass else 0
  let he := (b.shapes.headD Shape.plane).aabbHalfExtents
  let inertia := boxInertia b.mass he
  let invInertia : Vec3 :=
    ⟨if inertia.x > 0 then 1 / inertia.x else 0,
     if inertia.y > 0 then 1 / inertia.y else 0,
     if inertia.z > 0 then 1 / inertia.z else 0⟩
  Body.updateInertiaWorld true { b with invMass := invMass, invInertia := invInertia }

/-- `CANNON.Body.addShape` (offset/orientation arguments unused by the
repository): append the shape and recompute mass properties. -/
def Body.addShapeB (b : Body) (s : Shape) : Body :=
  Body.updateMassProps { b with shapes := b.shapes ++ [s] }

/-- `CANNON.Body.integrate(dt, quatNormalize, …)`: record the previous pose,
early-return for non-dynamic/kinematic or sleeping bodies, else semi-implicit
Euler on velocity/position and the quaternion-derivative step on orientation.
Quaternion renormalisation divides by a real square root, which ℚ cannot
express; it is abstracted as the function argument `normQ` (the claims proved
below do not depend on it). -/
def Body.integrate (b : Body) (dt : ℚ) (quatNormalize : Bool)
    (normQ : Quat → Quat) : Body :=
  let b0 := { b with previousPosition := b.position, previousQuaternion := b.quaternion }
  if ¬(b0.btype = BodyType.DYNAMIC ∨ b0.btype = BodyType.KINEMATIC) ∨
      b0.sleepState = SleepState.SLEEPING then b0
  else
    let iMdt := b0.invMass * dt
    let velo : Vec3 :=
      ⟨b0.velocity.x + b0.force.x * iMdt * b0.linearFactor.x,
       b0.velocity.y + b0.force.y * iMdt * b0.linearFactor.y,
       b0.velocity.z + b0.force.z * iMdt * b0.linearFactor.z⟩
    let e := b0.invInertiaWorld
    let tx := b0.torque.x * b0.angularFactor.x
    let ty := b0.torque.y * b0.angularFactor.y
    let tz := b0.torque.z * b0.angularFactor.z
    let angularVelo : Vec3 :=
      ⟨b0.angularVelocity.x + dt * (e.e0 * tx + e.e1 * ty + e.e2 * tz),
       b0.angularVelocity.y + dt * (e.e3 * tx + e.e4 * ty + e.e5 * tz),
       b0.angularVelocity.z + dt * (e.e6 * tx + e.e7 * ty + e.e8 * tz)⟩
    let pos : Vec3 :=
      ⟨b0.position.x + velo.x * dt, b0.position.y + velo.y * dt, b0.position.z + velo.z * dt⟩
    let quat := b0.quaternion.integrateQ angularVelo dt b0.angularFactor
    let quat := if quatNormalize then normQ quat else quat
    Body.updateInertiaWorld false
      { b0 with velocity := velo, angularVelocity := angularVelo, position := pos,
                quaternion := quat }

/-- Spook parameter `a` from `Equation.setSpookParams(stiffness, relaxation, h)`. -/
def spookA (_stiffness relaxation h : ℚ) : ℚ := 4 / (h * (1 + 4 * relaxation))

/-- Spook parameter `b`. -/
def spookB (_stiffness relaxation _h : ℚ) : ℚ :=
  (4 * relaxation) / (1 + 4 * relaxation)

/-- Spook parameter `eps`. -/
def spookEps (stiffness relaxation h : ℚ) : ℚ :=
  4 / (h * h * stiffness * (1 + 4 * relaxation))

/-- `CANNON.PointToPointConstraint` as the repository uses it.  The constraint
holds its two bodies by id (JS holds references), the two local pivots, and
the state of its three `ContactEquation`s, which always share identical spook
parameters and — after `update()` — identical world arms `ri`/`rj`; they are
therefore represented once.  `Equation`'s constructor sets the spook
parameters from `(1e7, 4, 1/60)`. -/
structure P2PConstraint where
  id : ℕ
  bodyAId : ℕ
  pivotA : Vec3
  bodyBId : ℕ
  pivotB : Vec3
  maxForce : ℚ
  collideConnected : Bool
  eqSpookA : ℚ
  eqSpookB : ℚ
  eqSpookEps : ℚ
  ri : Vec3
  rj : Vec3
deriving Repr, DecidableEq

/-- `Equation.setSpookParams` applied to all three equations of a
point-to-point constraint (as `handleTouchStart` does). -/
def P2PConstraint.setSpookParams (c : P2PConstraint) (stiffness relaxation h : ℚ) :
    P2PConstraint :=
  { c with eqSpookA := spookA stiffness relaxation h,
           eqSpookB := spookB stiffness relaxation h,
           eqSpookEps := spookEps stiffness relaxation h }

/-- `CANNON.ContactMaterial`: pairwise surface rule (material ids plus the
four parameters the repository configures). -/
structure ContactMaterial where
  materialA : ℕ
  materialB : ℕ
  friction : ℚ
  restitution : ℚ
  contactEquationStiffness : ℚ
  contactEquationRelaxation : ℚ
deriving Repr, DecidableEq

/-- `TupleDictionary.getKey(i, j)`: the unordered pair is canonicalised to
`(min, max)` (cannon swaps when `j < i`). -/
def tdKey (i j : ℕ) : ℕ × ℕ := if j < i then (j, i) else (i, j)

/-- `TupleDictionary.set`: newest entry for a key shadows older ones (cannon
overwrites in place; prepending preserves the lookup semantics). -/
def tdSet (t : List ((ℕ × ℕ) × ContactMaterial)) (i j : ℕ) (v : ContactMaterial) :
    List ((ℕ × ℕ) × ContactMaterial) := (tdKey i j, v) :: t

/-- `TupleDictionary.get`. -/
def tdGet (t : List ((ℕ × ℕ) × ContactMaterial)) (i j : ℕ) : Option ContactMaterial :=
  (t.find? (fun kv => kv.1 = tdKey i j)).map (fun kv => kv.2)

/-- The fields of `CANNON.World` that the repository reads or writes, plus the
id counters (global statics in cannon, world-local here since the app builds a
single world).  `sleepTimeLimit` / `sleepSpeedLimit` are expando properties
`createPhysicsWorld` stores on the world object (cannon-es reads sleep limits
from bodies, so they are inert data). -/
structure World where
  gravity : Vec3
  dt : ℚ
  allowSleep : Bool
  sleepTimeLimit : Option ℚ
  sleepSpeedLimit : Option ℚ
  solverIterations : ℕ
  solverTolerance : ℚ
  defaultContactMaterial : ContactMaterial
  contactmaterials : List ContactMaterial
  contactMaterialTable : List ((ℕ × ℕ) × ContactMaterial)
  materialIdCounter : ℕ
  bodyIdCounter : ℕ
  constraintIdCounter : ℕ
  bodies : List Body
  constraints : List P2PConstraint
deriving Repr, DecidableEq

/-- `world.bodies.find(b => b.id === bid)` — how the embedding resolves a JS
body reference. -/
def World.getBody (w : World) (bid : ℕ) : Option Body :=
  w.bodies.find? (fun b => b.id == bid)

/-- The body used when a lookup cannot fail in JS (all embedded call sites
pass ids of bodies present in the world). -/
def defaultBody : Body :=
  { id := 0, mass := 0, invMass := 0, btype := BodyType.STATIC,
    position := Vec3.zero, previousPosition := Vec3.zero,
    quaternion := Quat.ident, previousQuaternion := Quat.ident,
    velocity := Vec3.zero, angularVelocity := Vec3.zero,
    force := Vec3.zero, torque := Vec3.zero,
    linearDamping := 1 / 100, angularDamping := 1 / 100,
    linearFactor := ⟨1, 1, 1⟩, angularFactor := ⟨1, 1, 1⟩,
    invInertia := Vec3.zero, invInertiaWorld := Mat3.zeroM,
    materialId := none, shapes := [],
    collisionFilterGroup := 1, collisionFilterMask := -1,
    allowSleep := true, sleepState := SleepState.AWAKE }

def World.getBodyD (w : World) (bid : ℕ) : Body := (w.getBody bid).getD defaultBody

/-- Mutation of the body a JS reference aliases: rewrite the body with this id
inside the world's list. -/
def World.updateBody (w : World) (bid : ℕ) (f : Body → Body) : World :=
  { w with bodies := w.bodies.map (fun b => if b.id = bid then f b else b) }

/-- `world.addContactMaterial`. -/
def World.addContactMaterial (w : World) (cm : ContactMaterial) : World :=
  { w with contactmaterials := w.contactmaterials ++ [cm],
           contactMaterialTable := tdSet w.contactMaterialTable cm.materialA cm.materialB cm }

/-- `world.getContactMaterial(m1, m2)` with the default-rule fallback applied
by cannon's narrowphase when the table has no entry for the pair. -/
def World.getContactMaterialW (w : World) (a b : ℕ) : ContactMaterial :=
  (tdGet w.contactMaterialTable a b).getD w.defaultContactMaterial

/-- Removal of the first list entry carrying the given constraint id, which is
what `world.removeConstraint` (indexOf + splice on the reference) does: every
constraint the app creates has a fresh id, so id equality coincides with
reference equality. -/
def removeFirstById : List P2PConstraint → ℕ → List P2PConstraint
  | [], _ => []
  | c :: t, cid => if c.id = cid then t else c :: removeFirstById t cid

/-- `world.removeConstraint(constraint)`. -/
def World.removeConstraintW (w : World) (cid : ℕ) : World :=
  { w with constraints := removeFirstById w.constraints cid }

/-- Update (by id) the constraint a JS reference aliases inside the world's
constraint list. -/
def World.updateConstraintById (w : World) (cid : ℕ) (f : P2PConstraint → P2PConstraint) :
    World :=
  { w with constraints := w.constraints.map (fun c => if c.id = cid then f c else c) }

/-- `PointToPointConstraint.update()`: rotate the two local pivots into world
space and store them as the equations' arms `ri` / `rj` (all three equations
receive the same pair). -/
def P2PConstraint.updateC (w : World) (c : P2PConstraint) : P2PConstraint :=
  { c with ri := (w.getBodyD c.bodyAId).quaternion.vmult c.pivotA,
           rj := (w.getBodyD c.bodyBId).quaternion.vmult c.pivotB }

/-- The `new CANNON.Body(options)` constructor as the repository invokes it:
fresh id, `type` derived from the mass (`mass <= 0` ⇒ STATIC — the repository
never passes an explicit type), cannon's field defaults, then
`updateMassProperties`. -/
def mkBody (w : World) (mass : ℚ) (position : Vec3) (shapes : List Shape)
    (materialId : Option ℕ) : World × Body :=
  let b : Body :=
    { id := w.bodyIdCounter, mass := mass,
      invMass := 0,
      btype := if mass ≤ 0 then BodyType.STATIC else BodyType.DYNAMIC,
      position := position, previousPosition := position,
      quaternion := Quat.ident, previousQuaternion := Quat.ident,
      velocity := Vec3.zero, angularVelocity := Vec3.zero,
      force := Vec3.zero, torque := Vec3.zero,
      linearDamping := 1 / 100, angularDamping := 1 / 100,
      linearFactor := ⟨1, 1, 1⟩, angularFactor := ⟨1, 1, 1⟩,
      invInertia := Vec3.zero, invInertiaWorld := Mat3.zeroM,
      materialId := materialId, shapes := shapes,
      collisionFilterGroup := 1, collisionFilterMask := -1,
      allowSleep := true, sleepState := SleepState.AWAKE }
  ({ w with bodyIdCounter := w.bodyIdCounter + 1 }, b.updateMassProps)

/-- `world.addBody(body)`. -/
def World.addBodyW (w : World) (b : Body) : World :=
  { w with bodies := w.bodies ++ [b] }

/-- `createPhysicsWorld()` from the helper file: world with gravity
`(0, -9.82, 0)`, 10 solver iterations, tolerance `0.01`, sleeping allowed with
the (inert, world-level) limits `1.0` / `0.1`, the tuned default contact
material, and the cube–floor / cube–cube contact materials.  The world
constructor's default material (`id 0`) makes the two named materials get ids
1 (`"cube"`) and 2 (`"floor"`).  cannon's `World` constructor initialises
`dt = -1`. -/
def createPhysicsWorld : World :=
  let base : World :=
    { gravity := ⟨0, -982 / 100, 0⟩, dt := -1,
      allowSleep := true, sleepTimeLimit := some 1, sleepSpeedLimit := some (1 / 10),
      solverIterations := 10, solverTolerance := 1 / 100,
      defaultContactMaterial :=
        { materialA := 0, materialB := 0, friction := 7 / 10, restitution := 2 / 10,
          contactEquationStiffness := 10000000, contactEquationRelaxation := 3 },
      contactmaterials := [], contactMaterialTable := [],
      materialIdCounter := 3, bodyIdCounter := 0, constraintIdCounter := 0,
      bodies := [], constraints := [] }
  let cubeFloorContactMaterial : ContactMaterial :=
    { materialA := 1, materialB := 2, friction := 8 / 10, restitution := 1 / 10,
      contactEquationStiffness := 100000000, contactEquationRelaxation := 3 }
  let cubeCubeContactMaterial : ContactMaterial :=
    { materialA := 1, materialB := 1, friction := 4 / 10, restitution := 3 / 10,
      contactEquationStiffness := 10000000, contactEquationRelaxation := 5 }
  (base.addContactMaterial cubeFloorContactMaterial).addContactMaterial
    cubeCubeContactMaterial

/-- `createCube(scene, world, position, color, size)` — physics part: a fresh
`"cube"` material, a box body of mass 1 at `position` with half extents
`size/2`, dampings `0.6` / `0.8`, sleeping allowed, added to the world.  The
Three.js mesh it also builds is rendering-only and out of physics scope. -/
def createCube (w : World) (position : Vec3) (size : ℚ := 2) : World × Body :=
  let matId := w.materialIdCounter
  let w1 := { w with materialIdCounter := w.materialIdCounter + 1 }
  let shape := Shape.box ⟨size / 2, size / 2, size / 2⟩
  let (w2, body0) := mkBody w1 1 position [shape] (some matId)
  let body := { body0 with linearDamping := 6 / 10, angularDamping := 8 / 10,
                           allowSleep := true }
  (w2.addBodyW body, body)

/-- `createFloor(scene, world, width, height, yPosition)` — physics part: a
fresh `"floor"` material, a mass-0 body, a plane shape added to it, the
orientation set by `setFromEuler(-π/2, 0, 0)` and `position.y = yPosition`,
added to the world.  The euler quaternion `(sin(-π/4), 0, 0, cos(-π/4))` has
irrational components, so it is the explicit argument `qEuler`; no claim below
depends on its value. -/
def createFloor (w : World) (yPosition : ℚ := -5) (qEuler : Quat := Quat.ident) :
    World × Body :=
  let matId := w.materialIdCounter
  let w1 := { w with materialIdCounter := w.materialIdCounter + 1 }
  let (w2, body0) := mkBody w1 0 Vec3.zero [] (some matId)
  let body1 := body0.addShapeB Shape.plane
  let body2 := { body1 with quaternion := qEuler }
  let body3 := { body2 with position := ⟨body2.position.x, yPosition, body2.position.z⟩ }
  (w2.addBodyW body3, body3)

/-- `createJointBody(world)`: mass-0 body with a 0.1-radius sphere shape and
collision filter group/mask 0, added to the world. -/
def createJointBody (w : World) : World × Body :=
  let (w1, body0) := mkBody w 0 Vec3.zero [] none
  let body1 := body0.addShapeB (Shape.sphere (1 / 10))
  let body2 := { body1 with collisionFilterGroup := 0, collisionFilterMask := 0 }
  (w1.addBodyW body2, body2)

/-- `addJointConstraint(position, constrainedBody, jointBody, world)`: compute
the clicked point's offset from the constrained body, rotate it into the
body's local frame with the inverse orientation, move the joint body to the
clicked position, build the `PointToPointConstraint` (whose constructor wakes
both bodies) between the constrained body at that pivot and the joint body at
its origin, and register it with the world.  The function declares exactly
these four parameters; JavaScript discards any extra argument a caller
passes. -/
def addJointConstraint (position : Vec3) (constrainedBodyId jointBodyId : ℕ)
    (w : World) : World × P2PConstraint :=
  let cb := w.getBodyD constrainedBodyId
  let vector := position.vsub cb.position
  let antiRotation := cb.quaternion.inverse
  let pivot := antiRotation.vmult vector
  let w1 := w.updateBody jointBodyId (fun b => { b with position := position })
  let constraint : P2PConstraint :=
    { id := w1.constraintIdCounter,
      bodyAId := constrainedBodyId, pivotA := pivot,
      bodyBId := jointBodyId, pivotB := Vec3.zero,
      maxForce := 1000000, collideConnected := true,
      eqSpookA := spookA 10000000 4 (1 / 60),
      eqSpookB := spookB 10000000 4 (1 / 60),
      eqSpookEps := spookEps 10000000 4 (1 / 60),
      ri := Vec3.zero, rj := Vec3.zero }
  let w2 := (w1.updateBody constrainedBodyId Body.wakeUp).updateBody jointBodyId
      Body.wakeUp
  let w3 := { w2 with constraints := w2.constraints ++ [constraint],
                      constraintIdCounter := w2.constraintIdCounter + 1 }
  (w3, constraint)

/-- `moveJoint(position, jointBody, constraint)`: set the joint body's
position to the new point and call `constraint.update()` (which recomputes
the equations' world arms from the two bodies' orientations; it mutates no
body). -/
def moveJoint (position : Vec3) (jointBodyId cid : ℕ) (w : World) : World :=
  let w1 := w.updateBody jointBodyId (fun b => { b with position := position })
  w1.updateConstraintById cid (P2PConstraint.updateC w1)

/-- `removeJointConstraint(world, constraint)`: remove the constraint from the
world when the handle is non-null, otherwise do nothing. -/
def removeJointConstraint (w : World) : Option ℕ → World
  | none => w
  | some cid => w.removeConstraintW cid

/-- The mutable state `ThreeScene`'s effect closure keeps for physics: the
world, the cube bodies (`physicsObjects`, by body id, in creation order), the
joint body, the held constraint handle and the `isDragging` flag.  The
rendering-only state (meshes, marker, movement plane, camera) is out of
scope. -/
structure Scene where
  world : World
  physicsObjects : List ℕ
  jointBodyId : ℕ
  jointConstraintId : Option ℕ
  isDragging : Bool
deriving Repr, DecidableEq

/-- `handlePointerDown(event)` — physics effects.  Raycasting is an input:
`selected` is the first cube hit (its body id and world hit point), `none`
when nothing was hit (early return).  On a hit: create and register the joint
constraint (the `isMobile` flag is also passed as a fifth argument, which
`addJointConstraint` does not declare and JavaScript drops), wake the body,
apply the small `(0, 0.1, 0)` unsticking impulse at `body.position` when on
mobile, and set `isDragging`.  Note the function never checks `isDragging`. -/
def handlePointerDown (selected : Option (ℕ × Vec3)) (isMobileFlag : Bool)
    (s : Scene) : Scene :=
  match selected with
  | none => s
  | some (bid, hitPoint) =>
    let r := addJointConstraint hitPoint bid s.jointBodyId s.world
    let w2 := r.1.updateBody bid Body.wakeUp
    let w3 :=
      if isMobileFlag then
        w2.updateBody bid
          (fun b => b.applyImpulse ⟨0, 1 / 10, 0⟩ b.position)
      else w2
    { s with world := w3, jointConstraintId := some r.2.id, isDragging := true }

/-- `handlePointerMove(event)` — physics effects: nothing unless dragging;
otherwise, when the movement-plane raycast produces a point, `moveJoint` to
it.  (When dragging, the handle always aliases a live constraint; the
impossible null case leaves the state unchanged.) -/
def handlePointerMove (hit : Option Vec3) (s : Scene) : Scene :=
  if s.isDragging then
    match hit with
    | none => s
    | some p =>
      match s.jointConstraintId with
      | some cid => { s with world := moveJoint p s.jointBodyId cid s.world }
      | none => s
  else s

/-- `handlePointerUp()` — physics effects: nothing unless dragging; otherwise
remove the constraint from the world, clear the handle, clear `isDragging`.
No impulse is applied on this path. -/
def handlePointerUp (s : Scene) : Scene :=
  if s.isDragging then
    { s with world := removeJointConstraint s.world s.jointConstraintId,
             jointConstraintId := none, isDragging := false }
  else s

/-- `handleTouchStart(event)` — physics effects: like `handlePointerDown` but
the constraint call's (dropped) fifth argument is hard-coded `true`, the wake
is followed by a `(0, 0.2, 0)` impulse at `body.position`, and afterwards the
new constraint's equations get the softer touch spook parameters
`(1e6, 10, world.dt)` and `collideConnected := true`. -/
def handleTouchStart (selected : Option (ℕ × Vec3)) (s : Scene) : Scene :=
  match selected with
  | none => s
  | some (bid, hitPoint) =>
    let r := addJointConstraint hitPoint bid s.jointBodyId s.world
    let w2 := r.1.updateBody bid Body.wakeUp
    let w3 := w2.updateBody bid
      (fun b => b.applyImpulse ⟨0, 2 / 10, 0⟩ b.position)
    let w4 := w3.updateConstraintById r.2.id
      (fun c0 => { c0.setSpookParams 1000000 10 w3.dt with collideConnected := true })
    { s with world := w4, jointConstraintId := some r.2.id, isDragging := true }

/-- `handleTouchMove(event)` — physics effects: when dragging and the plane
raycast hits, `moveJoint` to the point and wake the joint body if it fell
asleep. -/
def handleTouchMove (hit : Option Vec3) (s : Scene) : Scene :=
  if s.isDragging then
    match hit with
    | none => s
    | some p =>
      match s.jointConstraintId with
      | some cid =>
        let w1 := moveJoint p s.jointBodyId cid s.world
        let w2 :=
          if (w1.getBodyD s.jointBodyId).sleepState = SleepState.SLEEPING then
            w1.updateBody s.jointBodyId Body.wakeUp
          else w1
        { s with world := w2 }
      | none => s
  else s

/-- `handleTouchEnd(event)` — physics effects: nothing unless dragging;
otherwise, when a constraint is held and `physicsObjects` is nonempty, apply
the random release impulse `((r1-0.5)*2, 1+r2, (r3-0.5)*2)` — `r1 r2 r3` are
the three `Math.random()` samples — to `physicsObjects[0]`'s body ("the first
body (typically the one being dragged)", per the source comment) at that
body's position; then remove the constraint, clear the handle and clear
`isDragging`. -/
def handleTouchEnd (r1 r2 r3 : ℚ) (s : Scene) : Scene :=
  if s.isDragging then
    let s1 :=
      match s.jointConstraintId, s.physicsObjects with
      | some _, bid0 :: _ =>
        { s with world := (s.world.updateBody bid0
            (fun b => b.applyImpulse ⟨(r1 - 1 / 2) * 2, 1 + r2, (r3 - 1 / 2) * 2⟩
              b.position)) }
      | _, _ => s
    { s1 with world := removeJointConstraint s1.world s1.jointConstraintId,
              jointConstraintId := none, isDragging := false }
  else s

/-- The stepping logic of `animate()`.  cannon's solver numerics live outside
the repository, so the three stepping calls are inputs: `stepSub` models
`world.step(1/45, 1/45, 4)`, `stepNoSub` models the fallback
`world.step(1/45, 0)`, and `fixedStepF` models `world.fixedStep()`; each
either returns the advanced world or raises (`Except.error`), which is what
the `try`/`catch` in `animate` is there for.  On mobile the first call's
exception is caught and the fallback is invoked — outside any `try` — and on
desktop `fixedStep` is invoked unguarded. -/
def animatePhysicsStep (isMobileFlag : Bool)
    (stepSub stepNoSub fixedStepF : World → Except String World) (w : World) :
    Except String World :=
  if isMobileFlag then
    match stepSub w with
    | Except.ok w2 => Except.ok w2
    | Except.error _ => stepNoSub w
  else fixedStepF w

namespace JsModel

/-- A JavaScript number that may be non-finite: `none` stands for NaN (or
±Infinity), `some q` for a finite value. -/
abbrev JsNum := Option ℚ

/-- A position vector whose components may be non-finite. -/
structure JsVec3 where
  x : JsNum
  y : JsNum
  z : JsNum
deriving Repr, DecidableEq

/-- The body fields `createCube` / `createFloor` actually set.  This mirror of
the main embedding generalises the scalar type to `JsNum` so that malformed
(non-finite) creation inputs are expressible: the two source functions copy
the position into the body verbatim and perform no arithmetic on it, so the
generalisation changes nothing else. -/
structure JsBody where
  mass : ℚ
  position : JsVec3
  linearDamping : ℚ
  angularDamping : ℚ
deriving Repr, DecidableEq

structure JsWorld where
  bodies : List JsBody
deriving Repr, DecidableEq

/-- `createCube` over possibly non-finite positions: exactly as in the
source, the mass is hard-coded to 1, the position is copied unchecked into the
body, no validation of any kind runs, nothing is ever thrown, and the body is
added to the world. -/
def createCubeJs (w : JsWorld) (position : JsVec3) : JsWorld × JsBody :=
  let body : JsBody :=
    { mass := 1, position := position, linearDamping := 6 / 10,
      angularDamping := 8 / 10 }
  ({ bodies := w.bodies ++ [body] }, body)

/-- `createFloor` over a possibly non-finite `yPosition`: mass hard-coded to
0, `position.y = yPosition` copied unchecked, no validation, never throws,
body added to the world. -/
def createFloorJs (w : JsWorld) (yPosition : JsNum) : JsWorld × JsBody :=
  let body : JsBody :=
    { mass := 0, position := ⟨some 0, yPosition, some 0⟩, linearDamping := 1 / 100,
      angularDamping := 1 / 100 }
  ({ bodies := w.bodies ++ [body] }, body)

end JsModel

/-! ### General lemmas about the state-passing embedding -/

theorem find?_map_pres {α : Type} (g : α → α) (p : α → Bool)
    (hp : ∀ a, p (g a) = p a) (l : List α) :
    (l.map g).find? p = Option.map g (l.find? p) := by
  induction l with
  | nil => rfl
  | cons a t ih =>
    by_cases h : p a = true
    · rw [List.map_cons, List.find?_cons_of_pos _ (by rw [hp]; exact h),
        List.find?_cons_of_pos _ h, Option.map_some']
    · rw [List.map_cons, List.find?_cons_of_neg _ (by rw [hp]; exact h),
        List.find?_cons_of_neg _ h, ih]

theorem map_id_of_pres (g : Body → Body) (hid : ∀ b, (g b).id = b.id)
    (l : List Body) : (l.map g).map Body.id = l.map Body.id := by
  induction l with
  | nil => rfl
  | cons a t ih => simp only [List.map_cons, ih, hid]

theorem getBody_updateBody (w : World) (i : ℕ) (f : Body → Body)
    (hid : ∀ b, (f b).id = b.id) (bid : ℕ) :
    (w.updateBody i f).getBody bid =
      Option.map (fun b => if b.id = i then f b else b) (w.getBody bid) := by
  simp only [World.updateBody, World.getBody]
  exact find?_map_pres _ _
    (fun b => by by_cases h : b.id = i <;> simp [h, hid]) _

theorem getBodyD_updateBody_other (w : World) (i : ℕ) (f : Body → Body)
    (hid : ∀ b, (f b).id = b.id) (bid : ℕ) (hne : bid ≠ i) :
    (w.updateBody i f).getBodyD bid = w.getBodyD bid := by
  unfold World.getBodyD
  rw [getBody_updateBody w i f hid bid]
  cases hfind : w.getBody bid with
  | none => rfl
  | some b =>
    have hb : b.id = bid := by
      have h2 : w.bodies.find? (fun x => x.id == bid) = some b := by
        simpa [World.getBody] using hfind
      simpa using List.find?_some h2
    simp [hb, hne]

theorem getBodyD_updateBody_self (w : World) (i : ℕ) (f : Body → Body)
    (hid : ∀ b, (f b).id = b.id) (hsome : (w.getBody i).isSome = true) :
    (w.updateBody i f).getBodyD i = f (w.getBodyD i) := by
  unfold World.getBodyD
  rw [getBody_updateBody w i f hid i]
  cases hfind : w.getBody i with
  | none => rw [hfind] at hsome; cases hsome
  | some b =>
    have hb : b.id = i := by
      have h2 : w.bodies.find? (fun x => x.id == i) = some b := by
        simpa [World.getBody] using hfind
      simpa using List.find?_some h2
    simp [hb]

theorem proj_getBodyD_updateBody {α : Type} (proj : Body → α) (w : World)
    (i : ℕ) (f : Body → Body) (hid : ∀ b, (f b).id = b.id)
    (hproj : ∀ b, proj (f b) = proj b) (bid : ℕ) :
    proj ((w.updateBody i f).getBodyD bid) = proj (w.getBodyD bid) := by
  unfold World.getBodyD
  rw [getBody_updateBody w i f hid bid]
  cases w.getBody bid with
  | none => rfl
  | some b => by_cases h : b.id = i <;> simp [h, hproj]

theorem ids_updateBody (w : World) (i : ℕ) (f : Body → Body)
    (hid : ∀ b, (f b).id = b.id) :
    (w.updateBody i f).bodies.map Body.id = w.bodies.map Body.id := by
  simp only [World.updateBody]
  exact map_id_of_pres _ (fun b => by by_cases h : b.id = i <;> simp [h, hid]) _

theorem constraints_updateBody (w : World) (i : ℕ) (f : Body → Body) :
    (w.updateBody i f).constraints = w.constraints := rfl

theorem getBodyD_updateConstraintById (w : World) (cid : ℕ)
    (f : P2PConstraint → P2PConstraint) (bid : ℕ) :
    (w.updateConstraintById cid f).getBodyD bid = w.getBodyD bid := rfl

theorem getBodyD_removeJointConstraint (w : World) (o : Option ℕ) (bid : ℕ) :
    (removeJointConstraint w o).getBodyD bid = w.getBodyD bid := by
  cases o <;> rfl

theorem bodies_removeJointConstraint (w : World) (o : Option ℕ) :
    (removeJointConstraint w o).bodies = w.bodies := by
  cases o <;> rfl

theorem getBodyD_setConstraints (w : World) (cs : List P2PConstraint) (n : ℕ)
    (bid : ℕ) :
    World.getBodyD { w with constraints := cs, constraintIdCounter := n } bid =
      w.getBodyD bid := rfl

theorem constraints_addJointConstraint (pos : Vec3) (bid jid : ℕ) (w : World) :
    ((addJointConstraint pos bid jid w).1).constraints =
      w.constraints ++ [(addJointConstraint pos bid jid w).2] := rfl

theorem proj_getBodyD_addJointConstraint {α : Type} (proj : Body → α)
    (hwake : ∀ b : Body, proj b.wakeUp = proj b)
    (hpos : ∀ (b : Body) (q : Vec3), proj { b with position := q } = proj b)
    (w : World) (pos : Vec3) (bid jid any : ℕ) :
    proj (((addJointConstraint pos bid jid w).1).getBodyD any) =
      proj (w.getBodyD any) := by
  simp only [addJointConstraint]
  rw [getBodyD_setConstraints]
  rw [proj_getBodyD_updateBody proj _ jid Body.wakeUp (fun b => rfl) hwake]
  rw [proj_getBodyD_updateBody proj _ bid Body.wakeUp (fun b => rfl) hwake]
  rw [proj_getBodyD_updateBody proj _ jid (fun b => { b with position := pos })
    (fun b => rfl) (fun b => hpos b pos)]

theorem proj_getBodyD_moveJoint {α : Type} (proj : Body → α)
    (hpos : ∀ (b : Body) (q : Vec3), proj { b with position := q } = proj b)
    (p : Vec3) (jid cid : ℕ) (w : World) (any : ℕ) :
    proj ((moveJoint p jid cid w).getBodyD any) = proj (w.getBodyD any) := by
  simp only [moveJoint]
  rw [getBodyD_updateConstraintById]
  rw [proj_getBodyD_updateBody proj _ jid (fun b => { b with position := p })
    (fun b => rfl) (fun b => hpos b p)]

theorem tdKey_symm (i j : ℕ) : tdKey i j = tdKey j i := by
  unfold tdKey
  rcases lt_trichotomy i j with h | h | h
  · simp [h, Nat.lt_asymm h]
  · subst h; rfl
  · simp [h, Nat.lt_asymm h]

theorem applyImpulse_nondynamic (b : Body) (imp rp : Vec3)
    (h : b.btype ≠ BodyType.DYNAMIC) : b.applyImpulse imp rp = b := by
  unfold Body.applyImpulse
  rw [if_pos h]

theorem integrate_nondynamic_pose (b : Body) (dt : ℚ) (qn : Bool)
    (nQ : Quat → Quat) (h : b.btype = BodyType.STATIC) :
    (b.integrate dt qn nQ).position = b.position ∧
      (b.integrate dt qn nQ).quaternion = b.quaternion := by
  simp [Body.integrate, h]

theorem btype_createFloor (w : World) (y : ℚ) (q : Quat) :
    ((createFloor w y q).2).btype = BodyType.STATIC := by
  simp only [createFloor, mkBody, Body.addShapeB, Body.updateMassProps,
    Body.updateInertiaWorld, not_true, and_false, if_false]
  norm_num

theorem btype_createJointBody (w : World) :
    ((createJointBody w).2).btype = BodyType.STATIC := by
  simp only [createJointBody, mkBody, Body.addShapeB, Body.updateMassProps,
    Body.updateInertiaWorld, not_true, and_false, if_false]
  norm_num

theorem mass_createFloor (w : World) (y : ℚ) (q : Quat) :
    ((createFloor w y q).2).mass = 0 := by
  simp only [createFloor, mkBody, Body.addShapeB, Body.updateMassProps,
    Body.updateInertiaWorld, not_true, and_false, if_false]

theorem mass_createJointBody (w : World) :
    ((createJointBody w).2).mass = 0 := by
  simp only [createJointBody, mkBody, Body.addShapeB, Body.updateMassProps,
    Body.updateInertiaWorld, not_true, and_false, if_false]

/-- Claim C7: contact rule lookup is symmetric.  On the world built by
`createPhysicsWorld` (the cube–floor and cube–cube rules plus the tuned
default), looking up any pair of material ids — registered or falling back to
the world default rule — gives the same friction / restitution / stiffness /
relaxation values in either order, because the table key is the unordered
pair. -/
theorem contact_rule_lookup_symm (a b : ℕ) :
    createPhysicsWorld.getContactMaterialW a b =
      createPhysicsWorld.getContactMaterialW b a := by
  unfold World.getContactMaterialW tdGet
  simp only [tdKey_symm a b]

/-- Claim C9: the constraint created on pointer-down does not depend on the
device-capability flag.  `addJointConstraint` declares exactly four
parameters (`position, constrainedBody, jointBody, world`); the call sites
pass `isMobile` as a fifth argument, which JavaScript drops.  Hence running
`handlePointerDown` with `isMobile = true` and `isMobile = false` from the
same state yields identical registered constraints (same pivots, same bodies,
same parameters), an identical held handle and the same dragging flag — the
flag only controls the separate unsticking impulse. -/
theorem handlePointerDown_constraint_ignores_mobile_flag
    (sel : Option (ℕ × Vec3)) (s : Scene) :
    (handlePointerDown sel true s).world.constraints =
        (handlePointerDown sel false s).world.constraints ∧
      (handlePointerDown sel true s).jointConstraintId =
        (handlePointerDown sel false s).jointConstraintId ∧
      (handlePointerDown sel true s).isDragging =
        (handlePointerDown sel false s).isDragging := by
  cases sel with
  | none => exact ⟨rfl, rfl, rfl⟩
  | some pr =>
    obtain ⟨bid, h⟩ := pr
    refine ⟨?_, rfl, rfl⟩
    simp [handlePointerDown, constraints_updateBody]

/-- Claim C6: `addJointConstraint` computes the target body's local-frame
anchor as `inverse(orientation)` applied to `worldHitPoint - position`,
creates the point-to-point constraint between the target body at that pivot
and the joint body at its own origin `(0,0,0)`, moves the joint body to the
hit point, and registers the constraint with the world. -/
theorem addJointConstraint_correct (w : World) (pos : Vec3) (bid jid : ℕ)
    (hj : (w.getBody jid).isSome = true) :
    (addJointConstraint pos bid jid w).2.pivotA =
        ((w.getBodyD bid).quaternion.inverse).vmult
          (pos.vsub (w.getBodyD bid).position) ∧
      (addJointConstraint pos bid jid w).2.bodyAId = bid ∧
      (addJointConstraint pos bid jid w).2.bodyBId = jid ∧
      (addJointConstraint pos bid jid w).2.pivotB = Vec3.zero ∧
      (((addJointConstraint pos bid jid w).1).getBodyD jid).position = pos ∧
      (addJointConstraint pos bid jid w).2 ∈
        ((addJointConstraint pos bid jid w).1).constraints := by
  refine ⟨rfl, rfl, rfl, rfl, ?_, ?_⟩
  · simp only [addJointConstraint]
    rw [getBodyD_setConstraints]
    rw [proj_getBodyD_updateBody Body.position _ jid Body.wakeUp
      (fun b => rfl) (fun b => rfl)]
    rw [proj_getBodyD_updateBody Body.position _ bid Body.wakeUp
      (fun b => rfl) (fun b => rfl)]
    rw [getBodyD_updateBody_self w jid (fun b => { b with position := pos })
      (fun b => rfl) hj]
  · rw [constraints_addJointConstraint]
    exact List.mem_append_right _ (List.mem_singleton_self _)

/-- Claim C8: the mass-0 bodies the repository creates — the floor body from
`createFloor` and the drag anchor from `createJointBody` — are constructed
STATIC (cannon derives the type from `mass <= 0`), so `applyImpulse` returns
them unchanged (velocities included) and the pose-mutating part of `step`,
`Body.integrate`, leaves their position and orientation untouched (cannon's
step changes a body's pose only inside `integrate`; the solver only touches
velocities, scaled by the zero inverse mass). -/
theorem mass_zero_bodies_inert (w w2 : World) (yPos : ℚ) (qf : Quat)
    (imp rp : Vec3) (dt : ℚ) (qn : Bool) (nQ : Quat → Quat) :
    ((createFloor w yPos qf).2).mass = 0 ∧
    ((createJointBody w2).2).mass = 0 ∧
    ((createFloor w yPos qf).2).applyImpulse imp rp = (createFloor w yPos qf).2 ∧
    ((createJointBody w2).2).applyImpulse imp rp = (createJointBody w2).2 ∧
    (((createFloor w yPos qf).2).integrate dt qn nQ).position =
      ((createFloor w yPos qf).2).position ∧
    (((createFloor w yPos qf).2).integrate dt qn nQ).quaternion =
      ((createFloor w yPos qf).2).quaternion ∧
    (((createJointBody w2).2).integrate dt qn nQ).position =
      ((createJointBody w2).2).position ∧
    (((createJointBody w2).2).integrate dt qn nQ).quaternion =
      ((createJointBody w2).2).quaternion := by
  refine ⟨mass_createFloor w yPos qf, mass_createJointBody w2, ?_, ?_, ?_, ?_, ?_, ?_⟩
  · exact applyImpulse_nondynamic _ imp rp (by rw [btype_createFloor]; intro hc; cases hc)
  · exact applyImpulse_nondynamic _ imp rp (by rw [btype_createJointBody]; intro hc; cases hc)
  · exact (integrate_nondynamic_pose _ dt qn nQ (btype_createFloor w yPos qf)).1
  · exact (integrate_nondynamic_pose _ dt qn nQ (btype_createFloor w yPos qf)).2
  · exact (integrate_nondynamic_pose _ dt qn nQ (btype_createJointBody w2)).1
  · exact (integrate_nondynamic_pose _ dt qn nQ (btype_createJointBody w2)).2

/-- Resolution of a JS constraint reference against the world's list. -/
def World.getConstraint (w : World) (cid : ℕ) : Option P2PConstraint :=
  w.constraints.find? (fun c => c.id == cid)

theorem map_cid_of_pres (g : P2PConstraint → P2PConstraint)
    (hid : ∀ c, (g c).id = c.id) (l : List P2PConstraint) :
    (l.map g).map P2PConstraint.id = l.map P2PConstraint.id := by
  induction l with
  | nil => rfl
  | cons a t ih => simp only [List.map_cons, ih, hid]

theorem bodies_updateConstraintById (w : World) (cid : ℕ)
    (f : P2PConstraint → P2PConstraint) :
    (w.updateConstraintById cid f).bodies = w.bodies := rfl

theorem getConstraint_moveJoint (w : World) (p : Vec3) (jid cid : ℕ) :
    (moveJoint p jid cid w).getConstraint cid =
      Option.map
        (P2PConstraint.updateC (w.updateBody jid (fun b => { b with position := p })))
        (w.getConstraint cid) := by
  simp only [moveJoint, World.updateConstraintById, World.getConstraint,
    constraints_updateBody]
  rw [find?_map_pres _ _
    (fun c => by by_cases hc : c.id = cid <;> simp [hc, P2PConstraint.updateC])
    w.constraints]
  cases hf : w.constraints.find? (fun c => c.id == cid) with
  | none => rfl
  | some c0 =>
    have hc0 : c0.id = cid := by simpa using List.find?_some hf
    simp [hc0]


/-- Claim C10: `moveJoint` mutates only the joint (anchor) body — setting its
position to the given point — and refreshes the constraint via
`constraint.update()`, which recomputes the equations' world arms from the
current orientations.  Every other body is untouched, and the dragged
(constrained) body in particular keeps its position, orientation, linear and
angular velocity; no body is added or removed and no constraint is created or
destroyed. -/
theorem moveJoint_frame (w : World) (p : Vec3) (jid cid bid : ℕ)
    (hne : bid ≠ jid) (hj : (w.getBody jid).isSome = true) :
    (moveJoint p jid cid w).getBodyD bid = w.getBodyD bid ∧
    ((moveJoint p jid cid w).getBodyD jid).position = p ∧
    ((moveJoint p jid cid w).getBodyD jid).velocity = (w.getBodyD jid).velocity ∧
    ((moveJoint p jid cid w).getBodyD jid).quaternion =
      (w.getBodyD jid).quaternion ∧
    ((moveJoint p jid cid w).getBodyD jid).angularVelocity =
      (w.getBodyD jid).angularVelocity ∧
    (moveJoint p jid cid w).bodies.map Body.id = w.bodies.map Body.id ∧
    (moveJoint p jid cid w).constraints.map P2PConstraint.id =
      w.constraints.map P2PConstraint.id ∧
    (moveJoint p jid cid w).getConstraint cid =
      Option.map
        (P2PConstraint.updateC (w.updateBody jid (fun b => { b with position := p })))
        (w.getConstraint cid) := by
  refine ⟨?_, ?_, ?_, ?_, ?_, ?_, ?_, getConstraint_moveJoint w p jid cid⟩
  · simp only [moveJoint]
    rw [getBodyD_updateConstraintById]
    exact getBodyD_updateBody_other w jid (fun b => { b with position := p })
      (fun b => rfl) bid hne
  · simp only [moveJoint]
    rw [getBodyD_updateConstraintById]
    rw [getBodyD_updateBody_self w jid (fun b => { b with position := p })
      (fun b => rfl) hj]
  · exact proj_getBodyD_moveJoint Body.velocity (fun b q => rfl) p jid cid w jid
  · exact proj_getBodyD_moveJoint Body.quaternion (fun b q => rfl) p jid cid w jid
  · exact proj_getBodyD_moveJoint Body.angularVelocity (fun b q => rfl) p jid cid w jid
  · simp only [moveJoint, bodies_updateConstraintById]
    exact ids_updateBody w jid _ (fun b => rfl)
  · simp only [moveJoint, World.updateConstraintById, constraints_updateBody]
    exact map_cid_of_pres _
      (fun c => by by_cases hc : c.id = cid <;> simp [hc, P2PConstraint.updateC]) _

theorem proj_desktop_roundtrip {α : Type} (proj : Body → α)
    (hwake : ∀ b : Body, proj b.wakeUp = proj b)
    (hpos : ∀ (b : Body) (q : Vec3), proj { b with position := q } = proj b)
    (s : Scene) (bid : ℕ) (h p : Vec3) :
    proj ((handlePointerUp (handlePointerMove (some p)
        (handlePointerDown (some (bid, h)) false s))).world.getBodyD bid) =
      proj (s.world.getBodyD bid) := by
  simp only [handlePointerDown, handlePointerMove, handlePointerUp, if_true,
    if_false, Bool.false_eq_true]
  rw [getBodyD_removeJointConstraint]
  rw [proj_getBodyD_moveJoint proj hpos]
  rw [proj_getBodyD_updateBody proj _ bid Body.wakeUp (fun b => rfl) hwake]
  exact proj_getBodyD_addJointConstraint proj hwake hpos s.world h bid s.jointBodyId bid

/-- Claim C2 (amended): on the desktop pointer path — `handlePointerDown`
with the mobile flag false, `handlePointerMove`, `handlePointerUp` — the drag
round trip applies no implicit impulse: the dragged body's linear and angular
velocity after `endDrag` equal their values just before `beginDrag`.  (The
touch path does not have this property: `handleTouchStart` applies a
`(0, 0.2, 0)` impulse and `handleTouchEnd` a random release impulse, as the
counterexample shows.) -/
theorem desktop_roundtrip_preserves_velocity (s : Scene) (bid : ℕ)
    (h p : Vec3) :
    ((handlePointerUp (handlePointerMove (some p)
        (handlePointerDown (some (bid, h)) false s))).world.getBodyD bid).velocity =
      (s.world.getBodyD bid).velocity ∧
    ((handlePointerUp (handlePointerMove (some p)
        (handlePointerDown (some (bid, h)) false s))).world.getBodyD
          bid).angularVelocity =
      (s.world.getBodyD bid).angularVelocity :=
  ⟨proj_desktop_roundtrip Body.velocity (fun _ => rfl) (fun _ _ => rfl) s bid h p,
   proj_desktop_roundtrip Body.angularVelocity (fun _ => rfl) (fun _ _ => rfl)
     s bid h p⟩

/-- Claim C1 (amended): neither `handlePointerDown` nor `handleTouchStart`
checks `isDragging`, so a drag-begin that hits a cube while a drag is already
active is not a no-op: it creates and registers a second constraint (the
world's constraint count grows by one, to 2 when one drag was active) and
overwrites the held handle with the fresh constraint's id, leaking the
previous constraint. -/
theorem beginDrag_while_active_adds_constraint (s : Scene) (bid : ℕ)
    (h : Vec3) (m : Bool) (hd : s.isDragging = true) :
    (handlePointerDown (some (bid, h)) m s).world.constraints.length =
        s.world.constraints.length + 1 ∧
      (handlePointerDown (some (bid, h)) m s).jointConstraintId =
        some s.world.constraintIdCounter ∧
      (handlePointerDown (some (bid, h)) m s).isDragging = true ∧
      (handleTouchStart (some (bid, h)) s).world.constraints.length =
        s.world.constraints.length + 1 := by
  refine ⟨?_, rfl, rfl, ?_⟩
  · simp only [handlePointerDown]
    cases m <;>
      simp [constraints_updateBody, constraints_addJointConstraint]
  · simp only [handleTouchStart, World.updateConstraintById]
    simp [constraints_updateBody, constraints_addJointConstraint]

/-- Claim C3 (amended): in `animate`, only the mobile path guards
`world.step`: a solver exception there is caught and the sub-step retried
once with substeps disabled (`world.step(timeStep, 0)`), but the retry itself
runs outside any `try`, so if the fallback also fails the exception
propagates to the animation loop — no body is put to sleep and no velocity is
zeroed.  On desktop, `world.fixedStep()` runs unguarded. -/
theorem animate_step_error_handling (f g fx : World → Except String World)
    (w : World) (e : String) (hf : f w = Except.error e) :
    animatePhysicsStep true f g fx w = g w ∧
      animatePhysicsStep false f g fx w = fx w := by
  constructor
  · simp [animatePhysicsStep, hf]
  · rfl

/-- Claim C4 (amended): `createCube` and `createFloor` perform no input
validation and never raise: every creation call — including a non-finite
(NaN) position — succeeds, the position is copied verbatim into the body, the
body is added to the World, and the mass is hard-coded (1 for cubes, 0 for
the floor), so a negative mass cannot arise through these functions and no
configuration error is ever raised. -/
theorem body_creation_never_validates (w : JsModel.JsWorld)
    (p : JsModel.JsVec3) (y : JsModel.JsNum) :
    (JsModel.createCubeJs w p).1.bodies =
        w.bodies ++ [(JsModel.createCubeJs w p).2] ∧
      (JsModel.createCubeJs w p).2.mass = 1 ∧
      (JsModel.createCubeJs w p).2.position = p ∧
      (JsModel.createFloorJs w y).1.bodies =
        w.bodies ++ [(JsModel.createFloorJs w y).2] ∧
      (JsModel.createFloorJs w y).2.mass = 0 ∧
      (JsModel.createFloorJs w y).2.position.y = y :=
  ⟨rfl, rfl, rfl, rfl, rfl, rfl⟩

/-- Number of constraints in a list carrying a given id. -/
def countC (l : List P2PConstraint) (cid : ℕ) : ℕ :=
  (l.filter (fun c => c.id == cid)).length

theorem countC_removeFirstById (l : List P2PConstraint) (cid : ℕ) :
    countC (removeFirstById l cid) cid = countC l cid - 1 := by
  induction l with
  | nil => rfl
  | cons c t ih =>
    by_cases hc : c.id = cid
    · simp [removeFirstById, countC, hc]
    · simp only [removeFirstById, if_neg hc]
      simp only [countC, List.filter_cons] at ih ⊢
      simp [hc, ih]

theorem id_applyImpulse (b : Body) (imp rp : Vec3) :
    (b.applyImpulse imp rp).id = b.id := by
  unfold Body.applyImpulse
  by_cases hb : b.btype ≠ BodyType.DYNAMIC
  · rw [if_pos hb]
  · rw [if_neg hb]
    by_cases hs : b.sleepState = SleepState.SLEEPING <;> simp [hs, Body.wakeUp]

/-- Claim C5 (amended): `endDrag` with no active drag is a no-op on both
paths.  With an active drag, both handlers remove the held constraint from
the world (its id's occurrence count drops by one), clear the handle and the
dragging flag, and never remove a body.  The pointer path applies no release
impulse at all; the touch path applies its random release impulse to
`physicsObjects[0]`'s body — the first-created cube — regardless of which
body the active constraint was attached to, leaving every other body (the
actually dragged one included, when it is not `physicsObjects[0]`)
untouched. -/
theorem endDrag_behaviour (s : Scene) (r1 r2 r3 : ℚ) (cid bid0 bidO : ℕ)
    (rest : List ℕ) :
    (s.isDragging = false →
      handlePointerUp s = s ∧ handleTouchEnd r1 r2 r3 s = s) ∧
    (s.isDragging = true →
      (handlePointerUp s).jointConstraintId = none ∧
      (handlePointerUp s).isDragging = false ∧
      (handlePointerUp s).world.bodies = s.world.bodies ∧
      (handleTouchEnd r1 r2 r3 s).jointConstraintId = none ∧
      (handleTouchEnd r1 r2 r3 s).isDragging = false ∧
      (handleTouchEnd r1 r2 r3 s).world.bodies.map Body.id =
        s.world.bodies.map Body.id ∧
      (s.jointConstraintId = some cid →
        countC (handlePointerUp s).world.constraints cid =
          countC s.world.constraints cid - 1) ∧
      (s.jointConstraintId = some cid →
        countC (handleTouchEnd r1 r2 r3 s).world.constraints cid =
          countC s.world.constraints cid - 1) ∧
      (s.jointConstraintId = some cid → s.physicsObjects = bid0 :: rest →
        bidO ≠ bid0 →
        (handleTouchEnd r1 r2 r3 s).world.getBodyD bidO =
          s.world.getBodyD bidO)) := by
  constructor
  · intro hd
    constructor
    · simp [handlePointerUp, hd]
    · simp [handleTouchEnd, hd]
  · intro hd
    refine ⟨?_, ?_, ?_, ?_, ?_, ?_, ?_, ?_, ?_⟩
    · simp [handlePointerUp, hd]
    · simp [handlePointerUp, hd]
    · simp [handlePointerUp, hd, bodies_removeJointConstraint]
    · simp [handleTouchEnd, hd]
    · simp [handleTouchEnd, hd]
    · simp only [handleTouchEnd, hd, if_true]
      cases hjc : s.jointConstraintId with
      | none => cases hpo : s.physicsObjects <;>
          simp [hjc, hpo, bodies_removeJointConstraint]
      | some c0 =>
        cases hpo : s.physicsObjects with
        | nil => simp [hjc, hpo, bodies_removeJointConstraint]
        | cons b0 t =>
          simp only [hjc, hpo]
          rw [bodies_removeJointConstraint]
          exact ids_updateBody _ b0 _ (fun b => id_applyImpulse b _ _)
    · intro hcid
      simp [handlePointerUp, hd, hcid, removeJointConstraint,
        World.removeConstraintW, countC_removeFirstById]
    · intro hcid
      simp only [handleTouchEnd, hd, if_true, hcid]
      cases hpo : s.physicsObjects with
      | nil =>
        simp [hpo, hcid, removeJointConstraint, World.removeConstraintW,
          countC_removeFirstById]
      | cons b0 t =>
        simp [hpo, hcid, removeJointConstraint, World.removeConstraintW,
          constraints_updateBody, countC_removeFirstById]
    · intro hcid hpo hne
      simp only [handleTouchEnd, hd, if_true, hcid, hpo]
      rw [getBodyD_removeJointConstraint]
      exact getBodyD_updateBody_other _ bid0
        (fun b => b.applyImpulse ⟨(r1 - 1 / 2) * 2, 1 + r2, (r3 - 1 / 2) * 2⟩
          b.position)
        (fun b => id_applyImpulse b _ _) bidO hne

/-- A scene as `initPhysics` in `ThreeScene.js` builds it, reduced to two
cubes: the physics world from `createPhysicsWorld`, the floor at `y = 0`,
size-3 cubes at the first two listed cube positions, and the joint body.
`initPhysics` also gives each cube a random start impulse; it is omitted (it
only shifts the cubes' initial velocities, and the facts below compare
velocities around individual handler calls).  The floor's euler quaternion is
irrational (see `createFloor`); the identity stands in, and nothing below
reads it.  Body ids: floor 0, cubes 1 and 2, joint body 3. -/
def demoSetup : Scene :=
  let w0 := createPhysicsWorld
  let f := createFloor w0 0 Quat.ident
  let c1 := createCube f.1 ⟨0, 10, 0⟩ 3
  let c2 := createCube c1.1 ⟨-5, 15, -3⟩ 3
  let j := createJointBody c2.1
  { world := j.1, physicsObjects := [c1.2.id, c2.2.id], jointBodyId := j.2.id,
    jointConstraintId := none, isDragging := false }

/-- `demoSetup` after a desktop pointer-down hit on cube 1: a drag is active
and one constraint (id 0) is registered. -/
def dragActiveScene : Scene :=
  handlePointerDown (some (1, ⟨0, 10, 0⟩)) false demoSetup

/-- `demoSetup` after a touch-start hit on cube 1. -/
def touchDrag1 : Scene := handleTouchStart (some (1, ⟨0, 10, 0⟩)) demoSetup

/-- `touchDrag1` after a touch-move to a nearby point. -/
def touchDrag1Moved : Scene := handleTouchMove (some ⟨1, 11, 0⟩) touchDrag1

/-- `touchDrag1Moved` after touch-end with all three `Math.random()` samples
at `1/2` (release impulse `(0, 3/2, 0)`). -/
def touchDrag1Ended : Scene := handleTouchEnd (1 / 2) (1 / 2) (1 / 2) touchDrag1Moved

/-- `demoSetup` after a touch-start hit on cube 2 (not the first physics
object). -/
def touchDrag2 : Scene := handleTouchStart (some (2, ⟨-5, 15, -3⟩)) demoSetup

/-- `touchDrag2` after touch-end with the three random samples at `1/2`. -/
def touchDrag2Ended : Scene := handleTouchEnd (1 / 2) (1 / 2) (1 / 2) touchDrag2

/-- Claim C1 counterexample: a pointer-down hit on cube 2 while the drag of
cube 1 is active is not a no-op — the world then holds 2 drag constraints,
not 1. -/
theorem beginDrag_while_active_cex :
    dragActiveScene.isDragging = true ∧
      dragActiveScene.world.constraints.length = 1 ∧
      (handlePointerDown (some (2, ⟨-5, 15, -3⟩)) false
          dragActiveScene).world.constraints.length = 2 :=
  ⟨rfl, rfl, rfl⟩

/-- Claim C1 witness: the amended statement applied to the concrete active
drag. -/
theorem beginDrag_while_active_witness :
    dragActiveScene.isDragging = true ∧
      (handlePointerDown (some (2, ⟨-5, 15, -3⟩)) false
          dragActiveScene).world.constraints.length =
        dragActiveScene.world.constraints.length + 1 :=
  ⟨rfl,
    (beginDrag_while_active_adds_constraint dragActiveScene 2 ⟨-5, 15, -3⟩
      false rfl).1⟩

/-- Claim C2 counterexample: on the touch path the round trip
`handleTouchStart; handleTouchMove; handleTouchEnd` (no release impulse
supplied by any caller — the random one is generated internally) changes the
dragged cube's velocity: cube 1 starts at rest and ends with velocity
`(0, 17/10, 0)` — `0.2` from the touch-start impulse plus `3/2` from the
touch-end release impulse at random samples `1/2`. -/
theorem touch_roundtrip_changes_velocity_cex :
    (demoSetup.world.getBodyD 1).velocity = ⟨0, 0, 0⟩ ∧
      (touchDrag1Ended.world.getBodyD 1).velocity = ⟨0, 17 / 10, 0⟩ ∧
      (⟨0, 17 / 10, 0⟩ : Vec3) ≠ (⟨0, 0, 0⟩ : Vec3) := by
  refine ⟨?_, ?_, by norm_num [Vec3.mk.injEq]⟩ <;>
  · norm_num [touchDrag1Ended, touchDrag1Moved, touchDrag1, demoSetup,
      createPhysicsWorld, createFloor, createCube, createJointBody, mkBody,
      Body.updateMassProps, Body.updateInertiaWorld, Body.addShapeB, boxInertia,
      Shape.aabbHalfExtents, World.addBodyW, World.addContactMaterial, tdSet,
      tdKey, World.getBodyD, World.getBody, World.updateBody,
      World.updateConstraintById, World.removeConstraintW, removeFirstById,
      removeJointConstraint, handleTouchStart, handleTouchMove, handleTouchEnd,
      addJointConstraint, moveJoint, P2PConstraint.updateC,
      P2PConstraint.setSpookParams, spookA, spookB, spookEps, Body.applyImpulse,
      Body.wakeUp, defaultBody, Vec3.vadd, Vec3.vsub, Vec3.scale, Vec3.cross,
      Vec3.zero, Quat.ident, Quat.inverse, Quat.conjugate, Quat.normSq,
      Quat.vmult, Mat3.vmultM, Mat3.rotFromQuat, Mat3.transposeM, Mat3.scaleCols,
      Mat3.mmultM, Mat3.zeroM, List.find?] <;> rfl

set_option maxHeartbeats 1600000 in
/-- Claim C5 counterexample: dragging cube 2 by touch and releasing applies
the release impulse to cube 1 — `physicsObjects[0]`, which is not the dragged
body.  The active constraint's `bodyA` is cube 2, yet after `handleTouchEnd`
cube 1's velocity has changed from rest to `(0, 3/2, 0)` while the dragged
cube 2's velocity is unchanged (`(0, 1/5, 0)` from touch-start, before and
after). -/
theorem endDrag_impulse_wrong_body_cex :
    touchDrag2.jointConstraintId = some 0 ∧
      (touchDrag2.world.getConstraint 0).map P2PConstraint.bodyAId = some 2 ∧
      (touchDrag2.world.getBodyD 1).velocity = ⟨0, 0, 0⟩ ∧
      (touchDrag2Ended.world.getBodyD 1).velocity = ⟨0, 3 / 2, 0⟩ ∧
      (touchDrag2.world.getBodyD 2).velocity = ⟨0, 1 / 5, 0⟩ ∧
      (touchDrag2Ended.world.getBodyD 2).velocity = ⟨0, 1 / 5, 0⟩ ∧
      (⟨0, 3 / 2, 0⟩ : Vec3) ≠ (⟨0, 0, 0⟩ : Vec3) := by
  refine ⟨rfl, rfl, ?_, ?_, ?_, ?_, by norm_num [Vec3.mk.injEq]⟩ <;>
  · norm_num [touchDrag2Ended, touchDrag2, demoSetup,
      createPhysicsWorld, createFloor, createCube, createJointBody, mkBody,
      Body.updateMassProps, Body.updateInertiaWorld, Body.addShapeB, boxInertia,
      Shape.aabbHalfExtents, World.addBodyW, World.addContactMaterial, tdSet,
      tdKey, World.getBodyD, World.getBody, World.updateBody,
      World.updateConstraintById, World.removeConstraintW, removeFirstById,
      removeJointConstraint, handleTouchStart, handleTouchEnd,
      addJointConstraint, P2PConstraint.updateC,
      P2PConstraint.setSpookParams, spookA, spookB, spookEps, Body.applyImpulse,
      Body.wakeUp, defaultBody, Vec3.vadd, Vec3.vsub, Vec3.scale, Vec3.cross,
      Vec3.zero, Quat.ident, Quat.inverse, Quat.conjugate, Quat.normSq,
      Quat.vmult, Mat3.vmultM, Mat3.rotFromQuat, Mat3.transposeM, Mat3.scaleCols,
      Mat3.mmultM, Mat3.zeroM, List.find?] <;> rfl

/-- Claim C5 witness: the amended statement applied to the concrete cube-2
touch drag — both the pointer-path and the touch-path constraint removal are
exercised. -/
theorem endDrag_witness :
    touchDrag2.isDragging = true ∧
      countC (handlePointerUp touchDrag2).world.constraints 0 =
        countC touchDrag2.world.constraints 0 - 1 ∧
      countC (handleTouchEnd (1 / 2) (1 / 2) (1 / 2) touchDrag2).world.constraints 0 =
        countC touchDrag2.world.constraints 0 - 1 :=
  ⟨rfl,
    (((endDrag_behaviour touchDrag2 (1 / 2) (1 / 2) (1 / 2) 0 1 2 [2]).2
      rfl).2.2.2.2.2.2.1 rfl),
    (((endDrag_behaviour touchDrag2 (1 / 2) (1 / 2) (1 / 2) 0 1 2 [2]).2
      rfl).2.2.2.2.2.2.2.1 rfl)⟩

/-- A `world.step(timeStep, timeStep, maxSubSteps)` invocation that raises a
numerical-instability exception (the situation the `try`/`catch` in `animate`
exists for). -/
def stepFailFirst : World → Except String World :=
  fun _ => Except.error "nonfinite solve"

/-- A fallback `world.step(timeStep, 0)` invocation that also raises. -/
def stepFailRetry : World → Except String World :=
  fun _ => Except.error "nonfinite retry"

/-- A `world.fixedStep()` invocation that succeeds. -/
def stepOk : World → Except String World := fun w => Except.ok w

/-- Claim C3 counterexample: when the guarded mobile step fails and the
fallback single-step retry also fails, `animate`'s stepping raises the
fallback's error to its caller — the error is not swallowed and no
sleep-and-zero recovery exists. -/
theorem animate_step_double_failure_cex :
    animatePhysicsStep true stepFailFirst stepFailRetry stepOk
        createPhysicsWorld = Except.error "nonfinite retry" := rfl

/-- Claim C3 witness: the amended statement applied to the concrete failing
step functions. -/
theorem animate_step_witness :
    stepFailFirst createPhysicsWorld = Except.error "nonfinite solve" ∧
      animatePhysicsStep true stepFailFirst stepFailRetry stepOk
          createPhysicsWorld = stepFailRetry createPhysicsWorld :=
  ⟨rfl,
    (animate_step_error_handling stepFailFirst stepFailRetry stepOk
      createPhysicsWorld "nonfinite solve" rfl).1⟩

/-- Claim C4 counterexample: `createCube` called with an entirely non-finite
(NaN) position raises nothing and the body IS added to the world, carrying
the NaN position and the hard-coded mass 1 — the creation-time rejection the
claim describes does not exist. -/
theorem nan_position_accepted_cex :
    (JsModel.createCubeJs ⟨[]⟩ ⟨none, none, none⟩).1.bodies.length = 1 ∧
      (JsModel.createCubeJs ⟨[]⟩ ⟨none, none, none⟩).2.position =
        ⟨none, none, none⟩ ∧
      (JsModel.createCubeJs ⟨[]⟩ ⟨none, none, none⟩).2.mass = 1 :=
  ⟨rfl, rfl, rfl⟩

/-- The joint body (id 3) is present in the demo scene's world. -/
theorem demoSetup_joint_present : (demoSetup.world.getBody 3).isSome = true := by
  norm_num [demoSetup, createPhysicsWorld, createFloor, createCube,
    createJointBody, mkBody, Body.updateMassProps, Body.updateInertiaWorld,
    Body.addShapeB, boxInertia, Shape.aabbHalfExtents, World.addBodyW,
    World.addContactMaterial, tdSet, tdKey, World.getBody, List.find?,
    Vec3.zero, Quat.ident, Mat3.zeroM] <;> rfl

/-- The joint body (id 3) is still present once the drag is active. -/
theorem dragActive_joint_present :
    (dragActiveScene.world.getBody 3).isSome = true := by
  norm_num [dragActiveScene, handlePointerDown, addJointConstraint,
    World.updateBody, Body.wakeUp, demoSetup, createPhysicsWorld, createFloor,
    createCube, createJointBody, mkBody, Body.updateMassProps,
    Body.updateInertiaWorld, Body.addShapeB, boxInertia, Shape.aabbHalfExtents,
    World.addBodyW, World.addContactMaterial, tdSet, tdKey, World.getBody,
    World.getBodyD, List.find?, Vec3.zero, Vec3.vsub, Quat.ident, Quat.inverse,
    Quat.conjugate, Quat.normSq, Quat.vmult, Mat3.zeroM, defaultBody, spookA,
    spookB, spookEps] <;> rfl

/-- Claim C6 witness: the pivot/constraint statement applied to a concrete
hit on cube 1 of the demo scene (joint body id 3 is present). -/
theorem addJointConstraint_witness :
    (demoSetup.world.getBody 3).isSome = true ∧
      (addJointConstraint ⟨1, 2, 3⟩ 1 3 demoSetup.world).2.bodyAId = 1 :=
  ⟨demoSetup_joint_present,
    (addJointConstraint_correct demoSetup.world ⟨1, 2, 3⟩ 1 3
      demoSetup_joint_present).2.1⟩

/-- Claim C10 witness: moving the joint during the concrete active drag
leaves cube 1 (id 1 ≠ joint body id 3) entirely unchanged. -/
theorem moveJoint_witness :
    ((1 : ℕ) ≠ 3) ∧ (dragActiveScene.world.getBody 3).isSome = true ∧
      (moveJoint ⟨2, 2, 2⟩ 3 0 dragActiveScene.world).getBodyD 1 =
        dragActiveScene.world.getBodyD 1 :=
  ⟨by decide, dragActive_joint_present,
    (moveJoint_frame dragActiveScene.world ⟨2, 2, 2⟩ 3 0 1 (by decide)
      dragActive_joint_present).1⟩

/-- Scaling every component of the quaternion scales `vmult`'s output by the
square of the factor (`vmult` is quadratic in the quaternion). -/
theorem vmult_scaleQ (s : ℚ) (q : Quat) (v : Vec3) :
    Quat.vmult ⟨q.x * s, q.y * s, q.z * s, q.w * s⟩ v =
      Vec3.scale (s * s) (q.vmult v) := by
  obtain ⟨qx, qy, qz, qw⟩ := q
  obtain ⟨vx, vy, vz⟩ := v
  simp only [Quat.vmult, Vec3.scale]
  ext <;> ring

/-- Rotating by a quaternion after rotating by its conjugate scales the
vector by the squared norm squared. -/
theorem vmult_conjugate_vmult (q : Quat) (v : Vec3) :
    q.vmult (q.conjugate.vmult v) = Vec3.scale (q.normSq * q.normSq) v := by
  obtain ⟨qx, qy, qz, qw⟩ := q
  obtain ⟨vx, vy, vz⟩ := v
  simp only [Quat.vmult, Quat.conjugate, Quat.normSq, Vec3.scale]
  ext <;> ring

/-- `vmult` is linear in the vector argument. -/
theorem vmult_scaleV (q : Quat) (t : ℚ) (v : Vec3) :
    q.vmult (Vec3.scale t v) = Vec3.scale t (q.vmult v) := by
  obtain ⟨qx, qy, qz, qw⟩ := q
  obtain ⟨vx, vy, vz⟩ := v
  simp only [Quat.vmult, Vec3.scale]
  ext <;> ring

/-- Soundness of the drag-pivot computation: for any orientation of nonzero
norm (unit body quaternions in particular), rotating the local anchor
`inverse(q) * (hit - position)` computed by `addJointConstraint` back by `q`
recovers the world-space offset `hit - position`, so the constraint's two
world anchor points coincide at creation time. -/
theorem vmult_inverse_vmult (q : Quat) (v : Vec3) (h : q.normSq ≠ 0) :
    q.vmult (q.inverse.vmult v) = v := by
  have hinv : q.inverse =
      ⟨q.conjugate.x * (1 / q.normSq), q.conjugate.y * (1 / q.normSq),
       q.conjugate.z * (1 / q.normSq), q.conjugate.w * (1 / q.normSq)⟩ := rfl
  rw [hinv, vmult_scaleQ, vmult_scaleV, vmult_conjugate_vmult]
  obtain ⟨vx, vy, vz⟩ := v
  simp only [Vec3.scale]
  ext <;> simp only [] <;> rw [← mul_assoc] <;> ring_nf <;> field_simp
